import Mathlib

/-!
Verification of the generic water heater controller
(`custom_components/generic_water_heater/water_heater.py`).

The controller is a hysteresis thermostat: it owns a desired operating mode,
an optional target temperature, a tolerance band, and the last known sensor
reading, and reacts to sensor/actuator state-change events by deciding
whether to command the heater actuator on or off.

Shallow embedding conventions:
* Home Assistant entity states (strings in Python) are modelled by `HState`:
  the distinguished strings "on", "off", "unavailable", "unknown", numeric
  strings (carrying a rational), and any other string.
* Temperatures are rationals (`ℚ`), standing in for Python floats.
* The mutable object state of `GenericWaterHeater` is the structure
  `GenericWaterHeater`; each handler is a function from the prior state (and
  the host's entity-state registry `Host`, plus the event payload) to an
  `Except PyErr` result, since several code paths raise Python exceptions
  (`TypeError` from arithmetic on `None`, `ValueError` from `float()`).
* Outbound effects are collected in a `List Ev`: service calls
  (`Ev.cmdOn` / `Ev.cmdOff`, the `homeassistant.turn_on` / `turn_off`
  service invocations) and display-state publications
  (`Ev.publish`, i.e. `async_write_ha_state`), in program order.
-/

/-- A Home Assistant entity state string, as this integration inspects it:
`STATE_ON`, `STATE_OFF`, `STATE_UNAVAILABLE`, `STATE_UNKNOWN`, a numeric
string (the only kind `float()` parses), or any other string. -/
inductive HState where
  | hOn
  | hOff
  | unavailable
  | unknown
  | num (v : ℚ)
  | other (s : String)
  deriving DecidableEq, Repr

/-- `state in (STATE_UNAVAILABLE, STATE_UNKNOWN)`. -/
def isUnavailableOrUnknown : HState → Bool
  | .unavailable => true
  | .unknown => true
  | _ => false

/-- Python `float(state)`: succeeds exactly on numeric state strings,
raises `ValueError` (modelled as `none`) otherwise. -/
def parseFloat : HState → Option ℚ
  | .num v => some v
  | _ => none

/-- Temperature units (`hass.config.units.temperature_unit`). -/
inductive TempUnit where
  | celsius
  | fahrenheit
  | kelvin
  deriving DecidableEq, Repr

/-- `DEFAULT_MIN_TEMP` from `homeassistant.components.water_heater`
(110 °F). -/
def DEFAULT_MIN_TEMP : ℚ := 110

/-- `DEFAULT_MAX_TEMP` from `homeassistant.components.water_heater`
(140 °F). -/
def DEFAULT_MAX_TEMP : ℚ := 140

/-- Convert a temperature value to Celsius. -/
def toCelsius (v : ℚ) : TempUnit → ℚ
  | .celsius => v
  | .fahrenheit => (v - 32) / (9 / 5)
  | .kelvin => v - 27315 / 100

/-- Convert a Celsius value to the given unit. -/
def fromCelsius (v : ℚ) : TempUnit → ℚ
  | .celsius => v
  | .fahrenheit => v * (9 / 5) + 32
  | .kelvin => v + 27315 / 100

/-- `homeassistant.util.unit_conversion.TemperatureConverter.convert`:
identity when units agree, otherwise route through Celsius. -/
def convert (v : ℚ) (fromUnit toUnit : TempUnit) : ℚ :=
  if fromUnit = toUnit then v else fromCelsius (toCelsius v fromUnit) toUnit

/-- Python exceptions the handlers can raise: `TypeError` (arithmetic or
comparison involving `None`) and `ValueError` (`float()` on a non-numeric
string). -/
inductive PyErr where
  | typeError
  | valueError
  deriving DecidableEq, Repr

/-- Outbound effects, in program order: a `homeassistant.turn_on` service
call, a `homeassistant.turn_off` service call, or an
`async_write_ha_state` display-state publication. -/
inductive Ev where
  | cmdOn
  | cmdOff
  | publish
  deriving DecidableEq, Repr

/-- The host's entity-state registry as this integration reads it
(`hass.states.get`): the current state object of the temperature sensor
entity and of the heater switch entity, `none` when the host has no state
object for that entity id. -/
structure Host where
  sensor : Option HState
  heater : Option HState
  deriving DecidableEq, Repr

/-- The mutable state of a `GenericWaterHeater` entity (field names follow
the Python attributes). -/
structure GenericWaterHeater where
  _target_temperature : Option ℚ
  _temperature_delta : Option ℚ
  _min_temp : Option ℚ
  _max_temp : Option ℚ
  _unit_of_measurement : TempUnit
  _current_operation : HState
  _current_temperature : Option ℚ
  _attr_available : Bool
  deriving DecidableEq, Repr

/-- `GenericWaterHeater.__init__`: target temperature, temperature delta,
min and max come from `config.get` (so each may be absent); the operation
mode starts as `STATE_ON`, the current temperature as `None`, and
availability as `False`. -/
def mkGenericWaterHeater (target_temp temp_delta min_temp max_temp : Option ℚ)
    (unit : TempUnit) : GenericWaterHeater :=
  { _target_temperature := target_temp
    _temperature_delta := temp_delta
    _min_temp := min_temp
    _max_temp := max_temp
    _unit_of_measurement := unit
    _current_operation := .hOn
    _current_temperature := none
    _attr_available := false }

/-- The `min_temp` property: `if not self._min_temp` (Python falsiness: both
`None` and `0` are falsy) compute and store the unit-converted platform
default, then return `self._min_temp`.  Returns the value together with
the updated object state. -/
def min_temp (c : GenericWaterHeater) : ℚ × GenericWaterHeater :=
  match c._min_temp with
  | some v =>
      if v = 0 then
        let d := convert DEFAULT_MIN_TEMP .fahrenheit c._unit_of_measurement
        (d, { c with _min_temp := some d })
      else (v, c)
  | none =>
      let d := convert DEFAULT_MIN_TEMP .fahrenheit c._unit_of_measurement
      (d, { c with _min_temp := some d })

/-- The `max_temp` property, symmetric to `min_temp`. -/
def max_temp (c : GenericWaterHeater) : ℚ × GenericWaterHeater :=
  match c._max_temp with
  | some v =>
      if v = 0 then
        let d := convert DEFAULT_MAX_TEMP .fahrenheit c._unit_of_measurement
        (d, { c with _max_temp := some d })
      else (v, c)
  | none =>
      let d := convert DEFAULT_MAX_TEMP .fahrenheit c._unit_of_measurement
      (d, { c with _max_temp := some d })

/-- `_async_heater_turn_on`: read the heater entity's state; if there is no
state object or it already reads `STATE_ON`, return without effect;
otherwise issue the `homeassistant.turn_on` service call. -/
def _async_heater_turn_on (h : Host) : List Ev :=
  match h.heater with
  | none => []
  | some s => if s = .hOn then [] else [.cmdOn]

/-- `_async_heater_turn_off`: read the heater entity's state; if there is no
state object or it already reads `STATE_OFF`, return without effect;
otherwise issue the `homeassistant.turn_off` service call. -/
def _async_heater_turn_off (h : Host) : List Ev :=
  match h.heater with
  | none => []
  | some s => if s = .hOff then [] else [.cmdOff]

/-- Which helper `_async_control_heating`'s `if`/`elif` chain selects:
invoke `_async_heater_turn_on`, invoke `_async_heater_turn_off`, or fall
through with no actuator action. -/
inductive Decision where
  | heatOn
  | heatOff
  | idle
  deriving DecidableEq, Repr

/-- The branch selection of `_async_control_heating`:
if `self._current_temperature is None` → pass; elif the operation is
`STATE_OFF` → turn off; elif `abs(current - target) > delta` → turn on when
`current < target`, else turn off; else → fall through.  The arithmetic
`current - target` (resp. the comparison against `delta`) raises
`TypeError` when the target (resp. the delta) is `None`. -/
def controlDecision (c : GenericWaterHeater) : Except PyErr Decision :=
  match c._current_temperature with
  | none => .ok .idle
  | some cur =>
      if c._current_operation = .hOff then .ok .heatOff
      else
        match c._target_temperature, c._temperature_delta with
        | some tgt, some δ =>
            if |cur - tgt| > δ then
              if cur < tgt then .ok .heatOn else .ok .heatOff
            else .ok .idle
        | _, _ => .error .typeError

/-- `_async_control_heating`: run the branch selection, perform the selected
actuator helper, and finish with `async_write_ha_state`.  On a raised
exception the publication is not reached. -/
def _async_control_heating (c : GenericWaterHeater) (h : Host) :
    Except PyErr (List Ev) :=
  match controlDecision c with
  | .error e => .error e
  | .ok .heatOn => .ok (_async_heater_turn_on h ++ [.publish])
  | .ok .heatOff => .ok (_async_heater_turn_off h ++ [.publish])
  | .ok .idle => .ok [.publish]

/-- Tail shared by the async handlers: run `_async_control_heating` on the
updated object state and append its effects to those already produced. -/
def runControl (c : GenericWaterHeater) (h : Host) (evs : List Ev) :
    Except PyErr (GenericWaterHeater × List Ev) :=
  match _async_control_heating c h with
  | .error e => .error e
  | .ok evs2 => .ok (c, evs ++ evs2)

/-- `async_set_temperature`: store `kwargs.get(ATTR_TEMPERATURE)` (absent key
gives `None`) into the target temperature, then run the control loop. -/
def async_set_temperature (c : GenericWaterHeater) (h : Host) (t : Option ℚ) :
    Except PyErr (GenericWaterHeater × List Ev) :=
  runControl { c with _target_temperature := t } h []

/-- `async_set_operation_mode`: store the argument, unvalidated, into the
current operation, then run the control loop. -/
def async_set_operation_mode (c : GenericWaterHeater) (h : Host)
    (operation_mode : HState) : Except PyErr (GenericWaterHeater × List Ev) :=
  runControl { c with _current_operation := operation_mode } h []

/-- `_async_sensor_changed`: on a missing, unavailable or unknown new sensor
state, issue the failsafe turn-off and clear the current temperature;
otherwise store `float(new_state.state)` (raising `ValueError` on a
non-numeric state).  Either way, run the control loop afterwards. -/
def _async_sensor_changed (c : GenericWaterHeater) (h : Host)
    (new_state : Option HState) : Except PyErr (GenericWaterHeater × List Ev) :=
  match new_state with
  | none =>
      runControl { c with _current_temperature := none } h
        (_async_heater_turn_off h)
  | some s =>
      if isUnavailableOrUnknown s then
        runControl { c with _current_temperature := none } h
          (_async_heater_turn_off h)
      else
        match parseFloat s with
        | some v => runControl { c with _current_temperature := some v } h []
        | none => .error .valueError

/-- `_async_switch_changed` (a synchronous callback): on a missing,
unavailable or unknown new heater state, mark the entity unavailable;
otherwise mark it available and resynchronize the operation mode with an
externally observed `STATE_ON`/`STATE_OFF`.  It only publishes display
state; it neither issues service calls nor runs the control loop. -/
def _async_switch_changed (c : GenericWaterHeater) (new_state : Option HState) :
    GenericWaterHeater × List Ev :=
  match new_state with
  | none => ({ c with _attr_available := false }, [.publish])
  | some s =>
      if isUnavailableOrUnknown s then
        ({ c with _attr_available := false }, [.publish])
      else
        let c1 := { c with _attr_available := true }
        let c2 :=
          if s = .hOn ∧ c1._current_operation = .hOff then
            { c1 with _current_operation := .hOn }
          else if s = .hOff ∧ c1._current_operation = .hOn then
            { c1 with _current_operation := .hOff }
          else c1
        (c2, [.publish])

/-- The restored snapshot `async_get_last_state` may return: its
`ATTR_TEMPERATURE` attribute (a number, when present) and its state. -/
structure Snapshot where
  attrTemperature : Option ℚ
  state : HState
  deriving DecidableEq, Repr

/-- The restore paragraph of `async_added_to_hass`: when
`async_get_last_state` returned a snapshot, copy its `ATTR_TEMPERATURE`
attribute (when present) into the target temperature and its state into
the current operation. -/
def restoreOldState (c : GenericWaterHeater) (old_state : Option Snapshot) :
    GenericWaterHeater :=
  match old_state with
  | none => c
  | some o =>
      let ca :=
        match o.attrTemperature with
        | none => c
        | some t => { c with _target_temperature := some t }
      { ca with _current_operation := o.state }

/-- The sensor paragraph of `async_added_to_hass`: when the live sensor
state exists and is not unavailable/unknown, store
`float(temp_sensor.state)` (raising `ValueError` on a non-numeric state)
into the current temperature. -/
def primeCurrentTemperature (c : GenericWaterHeater)
    (sensorState : Option HState) : Except PyErr GenericWaterHeater :=
  match sensorState with
  | none => .ok c
  | some s =>
      if isUnavailableOrUnknown s then .ok c
      else
        match parseFloat s with
        | some v => .ok { c with _current_temperature := some v }
        | none => .error .valueError

/-- The heater paragraph of `async_added_to_hass`: when the live heater
state exists and is not unavailable/unknown, mark the entity available. -/
def primeAvailability (c : GenericWaterHeater) (heaterState : Option HState) :
    GenericWaterHeater :=
  match heaterState with
  | none => c
  | some s =>
      if isUnavailableOrUnknown s then c
      else { c with _attr_available := true }

/-- `async_added_to_hass`: restore from the snapshot, prime the current
temperature from the live sensor state, prime availability from the live
heater state, and finally publish display state.  No service call and no
control-loop run happens here. -/
def async_added_to_hass (c : GenericWaterHeater) (h : Host)
    (old_state : Option Snapshot) :
    Except PyErr (GenericWaterHeater × List Ev) :=
  match primeCurrentTemperature (restoreOldState c old_state) h.sensor with
  | .error e => .error e
  | .ok c2 => .ok (primeAvailability c2 h.heater, [.publish])

deriving instance DecidableEq for Except

/-- A sample configuration used by concrete witnesses: target 120 °F,
temperature delta 2, no configured min/max. -/
def sampleHeater : GenericWaterHeater :=
  mkGenericWaterHeater (some 120) (some 2) none none .fahrenheit

/-- C1: with mode `STATE_ON`, a current reading `cur`, a target `tgt` and a
positive tolerance `δ`, the control re-evaluation selects the turn-on
helper iff `tgt - cur > δ`, the turn-off helper iff `cur - tgt > δ`, and
no actuator action iff `|cur - tgt| ≤ δ`. -/
theorem controlDecision_hysteresis_iff (c : GenericWaterHeater) (cur tgt δ : ℚ)
    (hc : c._current_temperature = some cur) (hm : c._current_operation = .hOn)
    (ht : c._target_temperature = some tgt) (hd : c._temperature_delta = some δ)
    (hδ : 0 < δ) :
    (controlDecision c = .ok .heatOn ↔ tgt - cur > δ) ∧
    (controlDecision c = .ok .heatOff ↔ cur - tgt > δ) ∧
    (controlDecision c = .ok .idle ↔ |cur - tgt| ≤ δ) := by
  have h0 : controlDecision c =
      (if |cur - tgt| > δ then
        if cur < tgt then .ok .heatOn else .ok .heatOff
       else .ok .idle) := by
    simp [controlDecision, hc, hm, ht, hd]
  rw [h0]
  by_cases habs : |cur - tgt| > δ
  · by_cases hlt : cur < tgt
    · have h1 : tgt - cur > δ := by
        have h2 := habs
        rw [abs_of_neg (by linarith : cur - tgt < 0)] at h2
        linarith
      rw [if_pos habs, if_pos hlt]
      exact ⟨iff_of_true rfl h1,
        iff_of_false (by simp) (not_lt.mpr (by linarith)),
        iff_of_false (by simp) (not_le.mpr habs)⟩
    · push_neg at hlt
      have h1 : cur - tgt > δ := by
        have h2 := habs
        rw [abs_of_nonneg (by linarith : (0:ℚ) ≤ cur - tgt)] at h2
        linarith
      rw [if_pos habs, if_neg (not_lt.mpr hlt)]
      exact ⟨iff_of_false (by simp) (not_lt.mpr (by linarith)),
        iff_of_true rfl h1,
        iff_of_false (by simp) (not_le.mpr habs)⟩
  · rw [if_neg habs]
    push_neg at habs
    have hab := abs_sub_le_iff.mp habs
    exact ⟨iff_of_false (by simp) (not_lt.mpr hab.2),
      iff_of_false (by simp) (not_lt.mpr hab.1),
      iff_of_true rfl habs⟩

/-- C1 witness: at target 120, delta 2, current reading 115, the theorem
instantiates and in particular the decision is to turn the heater on. -/
theorem controlDecision_hysteresis_iff_witness :
    ((controlDecision { sampleHeater with _current_temperature := some 115 } =
        .ok .heatOn ↔ (120:ℚ) - 115 > 2) ∧
     (controlDecision { sampleHeater with _current_temperature := some 115 } =
        .ok .heatOff ↔ (115:ℚ) - 120 > 2) ∧
     (controlDecision { sampleHeater with _current_temperature := some 115 } =
        .ok .idle ↔ |(115:ℚ) - 120| ≤ 2)) :=
  controlDecision_hysteresis_iff _ 115 120 2 rfl rfl rfl rfl (by norm_num)

/-- C8: whenever the operation mode is `STATE_OFF` and a current temperature
reading is present, the control re-evaluation selects the turn-off helper,
whatever the target temperature and tolerance hold (set or unset), and the
full control pass performs exactly the turn-off helper's service call
followed by the display-state publication. -/
theorem controlDecision_mode_off (c : GenericWaterHeater) (cur : ℚ)
    (hc : c._current_temperature = some cur)
    (hm : c._current_operation = .hOff) :
    controlDecision c = .ok .heatOff ∧
    ∀ h : Host, _async_control_heating c h =
      .ok (_async_heater_turn_off h ++ [.publish]) := by
  have hdec : controlDecision c = .ok .heatOff := by
    simp [controlDecision, hc, hm]
  exact ⟨hdec, fun h => by simp [_async_control_heating, hdec]⟩

/-- C8 witness: mode OFF with reading 115 and target unset decides OFF, and
with the heater currently reporting ON the pass issues the turn-off call. -/
theorem controlDecision_mode_off_witness :
    controlDecision { mkGenericWaterHeater none none none none .fahrenheit with
        _current_operation := .hOff, _current_temperature := some 115 } =
      .ok .heatOff ∧
    ∀ h : Host, _async_control_heating
        { mkGenericWaterHeater none none none none .fahrenheit with
          _current_operation := .hOff, _current_temperature := some 115 } h =
      .ok (_async_heater_turn_off h ++ [.publish]) :=
  controlDecision_mode_off _ 115 rfl rfl

/-- C3: with mode `STATE_ON`, a valid current reading, and the target
temperature never set, the control re-evaluation raises `TypeError`
(Python evaluates `abs(current - None)`), and the exception propagates out
of the sensor-changed reaction handler to the host instead of a defensive
no-op. -/
theorem control_heating_missing_target_raises :
    _async_control_heating
        { mkGenericWaterHeater none (some 2) none none .fahrenheit with
          _current_temperature := some 115 } ⟨some (.num 115), some .hOff⟩ =
      .error .typeError ∧
    _async_sensor_changed
        (mkGenericWaterHeater none (some 2) none none .fahrenheit)
        ⟨some (.num 115), some .hOff⟩ (some (.num 115)) =
      .error .typeError := by
  constructor <;>
    norm_num [_async_control_heating, _async_sensor_changed, controlDecision,
      parseFloat, isUnavailableOrUnknown, runControl, mkGenericWaterHeater] <;>
    simp

/-- C2: on a missing, unavailable or unknown sensor state the sensor-changed
handler runs the failsafe: it invokes the turn-off helper (which issues the
outbound turn-off call whenever the heater entity has a state other than
`STATE_OFF`), clears the current temperature, and the subsequent control
pass is a no-op publish — whatever the prior mode and prior reading. -/
theorem sensor_invalid_failsafe (c : GenericWaterHeater) (h : Host)
    (ns : Option HState)
    (hbad : ns = none ∨ ∃ s, ns = some s ∧ isUnavailableOrUnknown s = true) :
    _async_sensor_changed c h ns =
      .ok ({ c with _current_temperature := none },
           _async_heater_turn_off h ++ [.publish]) ∧
    (∀ s, h.heater = some s → s ≠ .hOff →
      Ev.cmdOff ∈ _async_heater_turn_off h) := by
  constructor
  · rcases hbad with rfl | ⟨s, rfl, hs⟩
    · simp [_async_sensor_changed, runControl, _async_control_heating,
        controlDecision]
    · simp [_async_sensor_changed, hs, runControl, _async_control_heating,
        controlDecision]
  · intro s hs hne
    simp [_async_heater_turn_off, hs, hne]

/-- C2 witness: with a prior reading of 115 and the heater reporting ON, an
`unknown` sensor report yields the turn-off call, the publish, and an unset
current temperature. -/
theorem sensor_invalid_failsafe_witness :
    _async_sensor_changed { sampleHeater with _current_temperature := some 115 }
        ⟨some .unavailable, some .hOn⟩ (some .unknown) =
      .ok ({ { sampleHeater with _current_temperature := some 115 } with
              _current_temperature := none },
           _async_heater_turn_off ⟨some .unavailable, some .hOn⟩ ++ [.publish]) ∧
    (∀ s, (Host.mk (some .unavailable) (some .hOn)).heater = some s →
      s ≠ .hOff →
      Ev.cmdOff ∈ _async_heater_turn_off ⟨some .unavailable, some .hOn⟩) :=
  sensor_invalid_failsafe _ _ _ (Or.inr ⟨.unknown, rfl, rfl⟩)

/-- C5: the switch-changed handler only ever publishes display state (it
issues no service call and runs no control pass); a valid ON/OFF heater
state makes the entity available and resynchronizes the operation mode in
both directions; a missing, unavailable or unknown state makes the entity
unavailable and leaves the mode unchanged. -/
theorem switch_changed_spec (c : GenericWaterHeater) (ns : Option HState) :
    (_async_switch_changed c ns).2 = [.publish] ∧
    (∀ s, ns = some s → s = .hOn ∨ s = .hOff →
      ((_async_switch_changed c ns).1._attr_available = true ∧
       (s = .hOn → c._current_operation = .hOff →
         (_async_switch_changed c ns).1._current_operation = .hOn) ∧
       (s = .hOff → c._current_operation = .hOn →
         (_async_switch_changed c ns).1._current_operation = .hOff))) ∧
    ((ns = none ∨ ∃ s, ns = some s ∧ isUnavailableOrUnknown s = true) →
      ((_async_switch_changed c ns).1._attr_available = false ∧
       (_async_switch_changed c ns).1._current_operation =
         c._current_operation)) := by
  refine ⟨?_, ?_, ?_⟩
  · rcases ns with _ | s
    · rfl
    · by_cases hbad : isUnavailableOrUnknown s <;>
        simp [_async_switch_changed, hbad]
  · rintro s rfl hval
    rcases hval with rfl | rfl
    · by_cases hm : c._current_operation = .hOff <;>
        simp [_async_switch_changed, isUnavailableOrUnknown, hm]
    · by_cases hm : c._current_operation = .hOn <;>
        simp [_async_switch_changed, isUnavailableOrUnknown, hm]
  · rintro (rfl | ⟨s, rfl, hs⟩)
    · simp [_async_switch_changed]
    · simp [_async_switch_changed, hs]

/-- C5 witness: with mode ON, an externally observed `STATE_OFF` heater state
makes the entity available and forces the mode to OFF. -/
theorem switch_changed_spec_witness :
    (_async_switch_changed sampleHeater (some .hOff)).1._attr_available =
      true ∧
    (_async_switch_changed sampleHeater (some .hOff)).1._current_operation =
      .hOff :=
  ⟨((switch_changed_spec sampleHeater (some .hOff)).2.1 .hOff rfl
      (Or.inr rfl)).1,
   ((switch_changed_spec sampleHeater (some .hOff)).2.1 .hOff rfl
      (Or.inr rfl)).2.2 rfl rfl⟩

/-- C10: when the host holds no state object for the heater entity, both
actuator helpers return without issuing any service call; in particular
the failsafe triggered by a missing/unavailable/unknown sensor report
produces only a display publication and no outbound command. -/
theorem no_heater_state_object_no_command (h : Host) (c : GenericWaterHeater)
    (hh : h.heater = none) :
    _async_heater_turn_on h = [] ∧ _async_heater_turn_off h = [] ∧
    _async_sensor_changed c h none =
      .ok ({ c with _current_temperature := none }, [.publish]) ∧
    ∀ s, isUnavailableOrUnknown s = true →
      _async_sensor_changed c h (some s) =
        .ok ({ c with _current_temperature := none }, [.publish]) := by
  refine ⟨?_, ?_, ?_, ?_⟩
  · simp [_async_heater_turn_on, hh]
  · simp [_async_heater_turn_off, hh]
  · simp [_async_sensor_changed, _async_heater_turn_off, hh, runControl,
      _async_control_heating, controlDecision]
  · intro s hs
    simp [_async_sensor_changed, hs, _async_heater_turn_off, hh, runControl,
      _async_control_heating, controlDecision]

/-- C10 witness: an `unavailable` sensor report with no heater state object
results in a publish only — the failsafe issues no command. -/
theorem no_heater_state_object_no_command_witness :
    _async_heater_turn_on ⟨some .unavailable, none⟩ = [] ∧
    _async_heater_turn_off ⟨some .unavailable, none⟩ = [] ∧
    _async_sensor_changed { sampleHeater with _current_temperature := some 115 }
        ⟨some .unavailable, none⟩ none =
      .ok ({ { sampleHeater with _current_temperature := some 115 } with
              _current_temperature := none }, [.publish]) ∧
    ∀ s, isUnavailableOrUnknown s = true →
      _async_sensor_changed
          { sampleHeater with _current_temperature := some 115 }
          ⟨some .unavailable, none⟩ (some s) =
        .ok ({ { sampleHeater with _current_temperature := some 115 } with
                _current_temperature := none }, [.publish]) :=
  no_heater_state_object_no_command _ _ rfl

/-- C4 counterexample: with the heater entity still reporting `STATE_OFF`
(no intervening actuator state change), two consecutive turn-on
invocations each issue an outbound service call — two commands, not at
most one. -/
theorem heater_turn_on_twice_two_commands :
    _async_heater_turn_on ⟨none, some .hOff⟩ ++
      _async_heater_turn_on ⟨none, some .hOff⟩ = [.cmdOn, .cmdOn] ∧
    ¬ (_async_heater_turn_on ⟨none, some .hOff⟩ ++
        _async_heater_turn_on ⟨none, some .hOff⟩).length ≤ 1 := by
  constructor <;> simp [_async_heater_turn_on]

/-- C4 amended: each command helper first reads the actuator's reported
state and is a no-op exactly when the state object is missing or the
reported state already equals the desired one; hence, with no intervening
actuator state change, issuing the same command twice issues the outbound
call either both times or neither time — at most one outbound call happens
only in the no-op situation. -/
theorem heater_command_noop_iff (h : Host) :
    (_async_heater_turn_on h = [] ↔
      h.heater = none ∨ h.heater = some .hOn) ∧
    (_async_heater_turn_off h = [] ↔
      h.heater = none ∨ h.heater = some .hOff) ∧
    ((_async_heater_turn_on h ++ _async_heater_turn_on h).length = 0 ∨
     (_async_heater_turn_on h ++ _async_heater_turn_on h).length = 2) ∧
    ((_async_heater_turn_off h ++ _async_heater_turn_off h).length = 0 ∨
     (_async_heater_turn_off h ++ _async_heater_turn_off h).length = 2) := by
  obtain ⟨sen, hea⟩ := h
  rcases hea with _ | s
  · simp [_async_heater_turn_on, _async_heater_turn_off]
  · cases s <;> simp [_async_heater_turn_on, _async_heater_turn_off]

/-- C4 witness: when the actuator already reports `STATE_OFF` the turn-off
helper is a no-op, and repeating turn-on against an `STATE_OFF` report
yields zero or two calls (here: two). -/
theorem heater_command_noop_iff_witness :
    _async_heater_turn_off ⟨none, some .hOff⟩ = [] ∧
    ((_async_heater_turn_on ⟨none, some .hOff⟩ ++
       _async_heater_turn_on ⟨none, some .hOff⟩).length = 0 ∨
     (_async_heater_turn_on ⟨none, some .hOff⟩ ++
       _async_heater_turn_on ⟨none, some .hOff⟩).length = 2) :=
  ⟨(heater_command_noop_iff ⟨none, some .hOff⟩).2.1.mpr (Or.inr rfl),
   (heater_command_noop_iff ⟨none, some .hOff⟩).2.2.1⟩

/-- C6 counterexample: a configured minimum temperature of 0 (falsy in
Python, like `None`) is not returned by the accessor: with Celsius as the
unit the first call returns the converted platform default 130/3 instead
of the configured 0. -/
theorem min_temp_configured_zero_not_returned :
    (min_temp (mkGenericWaterHeater none none (some 0) none .celsius)).1 =
      130 / 3 ∧
    (min_temp (mkGenericWaterHeater none none (some 0) none .celsius)).1 ≠
      0 := by
  constructor <;>
    norm_num [min_temp, mkGenericWaterHeater, convert, toCelsius,
      fromCelsius, DEFAULT_MIN_TEMP] <;> simp

/-- The unit-converted default minimum is nonzero in every unit, so once
cached it is no longer falsy. -/
theorem convert_default_min_ne_zero (u : TempUnit) :
    convert DEFAULT_MIN_TEMP .fahrenheit u ≠ 0 := by
  cases u <;>
    norm_num [convert, toCelsius, fromCelsius, DEFAULT_MIN_TEMP] <;> simp

/-- The unit-converted default maximum is nonzero in every unit, so once
cached it is no longer falsy. -/
theorem convert_default_max_ne_zero (u : TempUnit) :
    convert DEFAULT_MAX_TEMP .fahrenheit u ≠ 0 := by
  cases u <;>
    norm_num [convert, toCelsius, fromCelsius, DEFAULT_MAX_TEMP] <;> simp

/-- C6 amended: the `min_temp` / `max_temp` accessors return a configured
value whenever it is non-falsy (nonzero); when the stored value is `None`
or 0 the first call computes the unit-converted platform default, caches
it, and the second call returns that identical cached value unchanged, so
the defaulting computation happens at most once. -/
theorem min_max_temp_default_caching (c : GenericWaterHeater) :
    (∀ v, c._min_temp = some v → v ≠ 0 → min_temp c = (v, c)) ∧
    (c._min_temp = none ∨ c._min_temp = some 0 →
      min_temp c =
        (convert DEFAULT_MIN_TEMP .fahrenheit c._unit_of_measurement,
         { c with _min_temp := some (convert DEFAULT_MIN_TEMP .fahrenheit
             c._unit_of_measurement) }) ∧
      min_temp { c with _min_temp := some (convert DEFAULT_MIN_TEMP
          .fahrenheit c._unit_of_measurement) } =
        (convert DEFAULT_MIN_TEMP .fahrenheit c._unit_of_measurement,
         { c with _min_temp := some (convert DEFAULT_MIN_TEMP .fahrenheit
             c._unit_of_measurement) })) ∧
    (∀ v, c._max_temp = some v → v ≠ 0 → max_temp c = (v, c)) ∧
    (c._max_temp = none ∨ c._max_temp = some 0 →
      max_temp c =
        (convert DEFAULT_MAX_TEMP .fahrenheit c._unit_of_measurement,
         { c with _max_temp := some (convert DEFAULT_MAX_TEMP .fahrenheit
             c._unit_of_measurement) }) ∧
      max_temp { c with _max_temp := some (convert DEFAULT_MAX_TEMP
          .fahrenheit c._unit_of_measurement) } =
        (convert DEFAULT_MAX_TEMP .fahrenheit c._unit_of_measurement,
         { c with _max_temp := some (convert DEFAULT_MAX_TEMP .fahrenheit
             c._unit_of_measurement) })) := by
  have hmin := convert_default_min_ne_zero c._unit_of_measurement
  have hmax := convert_default_max_ne_zero c._unit_of_measurement
  refine ⟨?_, ?_, ?_, ?_⟩
  · intro v hv hvne
    simp [min_temp, hv, hvne]
  · rintro (h0 | h0) <;>
      exact ⟨by simp [min_temp, h0], by simp [min_temp, hmin]⟩
  · intro v hv hvne
    simp [max_temp, hv, hvne]
  · rintro (h0 | h0) <;>
      exact ⟨by simp [max_temp, h0], by simp [max_temp, hmax]⟩

/-- C6 witness: a configured nonzero min of 115 °F is returned as-is, and
with nothing configured for max the instance caches the converted default
and returns the identical cached value again on the second call. -/
theorem min_max_temp_default_caching_witness :
    min_temp (mkGenericWaterHeater (some 120) (some 2) (some 115) none
        .fahrenheit) =
      (115, mkGenericWaterHeater (some 120) (some 2) (some 115) none
        .fahrenheit) ∧
    max_temp sampleHeater =
      (convert DEFAULT_MAX_TEMP .fahrenheit
         sampleHeater._unit_of_measurement,
       { sampleHeater with _max_temp := some (convert DEFAULT_MAX_TEMP
           .fahrenheit sampleHeater._unit_of_measurement) }) ∧
    max_temp { sampleHeater with _max_temp := some (convert DEFAULT_MAX_TEMP
        .fahrenheit sampleHeater._unit_of_measurement) } =
      (convert DEFAULT_MAX_TEMP .fahrenheit
         sampleHeater._unit_of_measurement,
       { sampleHeater with _max_temp := some (convert DEFAULT_MAX_TEMP
           .fahrenheit sampleHeater._unit_of_measurement) }) :=
  ⟨(min_max_temp_default_caching (mkGenericWaterHeater (some 120) (some 2)
      (some 115) none .fahrenheit)).1 115 rfl (by norm_num),
   ((min_max_temp_default_caching sampleHeater).2.2.2 (Or.inl rfl)).1,
   ((min_max_temp_default_caching sampleHeater).2.2.2 (Or.inl rfl)).2⟩

/-- `restoreOldState` characterized: it rewrites only the operation mode and
(when the snapshot carries a temperature attribute) the target. -/
theorem restoreOldState_fields (c : GenericWaterHeater)
    (old : Option Snapshot) :
    (restoreOldState c old)._current_operation =
      old.elim c._current_operation Snapshot.state ∧
    (restoreOldState c old)._target_temperature =
      old.elim c._target_temperature
        (fun o => o.attrTemperature.elim c._target_temperature some) ∧
    (restoreOldState c old)._current_temperature = c._current_temperature ∧
    (restoreOldState c old)._attr_available = c._attr_available := by
  rcases old with _ | ⟨ot, os⟩
  · exact ⟨rfl, rfl, rfl, rfl⟩
  · rcases ot with _ | t <;> exact ⟨rfl, rfl, rfl, rfl⟩

/-- When every present, non-marker sensor state is numeric,
`primeCurrentTemperature` succeeds; it stores the parsed reading (keeping
the prior value on a missing or marker state) and leaves the rest of the
object unchanged. -/
theorem primeCurrentTemperature_valid (c : GenericWaterHeater)
    (sen : Option HState)
    (hs : ∀ s, sen = some s → isUnavailableOrUnknown s = false →
      ∃ v, s = .num v) :
    primeCurrentTemperature c sen =
      .ok { c with _current_temperature := (sen.elim c._current_temperature
              (fun s => (parseFloat s).elim c._current_temperature some)) } := by
  rcases sen with _ | s
  · rfl
  · cases s <;> first
      | rfl
      | (obtain ⟨v, hv⟩ := hs _ rfl rfl; simp at hv)

/-- Whenever `primeCurrentTemperature` succeeds it leaves the operation mode
unchanged. -/
theorem primeCurrentTemperature_ok_mode (c c2 : GenericWaterHeater)
    (sen : Option HState)
    (hok : primeCurrentTemperature c sen = .ok c2) :
    c2._current_operation = c._current_operation := by
  rcases sen with _ | s
  · simp only [primeCurrentTemperature] at hok
    injection hok with hok
    rw [← hok]
  · simp only [primeCurrentTemperature] at hok
    by_cases hb : isUnavailableOrUnknown s
    · rw [if_pos hb] at hok
      injection hok with hok
      rw [← hok]
    · rw [if_neg hb] at hok
      rcases hp : parseFloat s with _ | v <;> rw [hp] at hok
      · cases hok
      · injection hok with hok
        rw [← hok]

/-- `primeAvailability` characterized: it rewrites only the availability
flag, and only to `true`. -/
theorem primeAvailability_fields (c : GenericWaterHeater)
    (hea : Option HState) :
    (primeAvailability c hea)._attr_available =
      hea.elim c._attr_available
        (fun s => if isUnavailableOrUnknown s then c._attr_available
                  else true) ∧
    (primeAvailability c hea)._current_operation = c._current_operation ∧
    (primeAvailability c hea)._target_temperature =
      c._target_temperature ∧
    (primeAvailability c hea)._current_temperature =
      c._current_temperature := by
  rcases hea with _ | s
  · exact ⟨rfl, rfl, rfl, rfl⟩
  · by_cases hb : isUnavailableOrUnknown s <;>
      simp [primeAvailability, hb]

/-- C7: attaching never issues a service call and never runs the control
loop — its only effect is the final display publication; it restores
target and mode from the snapshot when present, primes the current
temperature only from a numeric live sensor reading, and ends available
exactly when the live heater state exists and is valid (the entity starts
unavailable). -/
theorem added_to_hass_spec (c : GenericWaterHeater) (h : Host)
    (old : Option Snapshot)
    (hav : c._attr_available = false)
    (hs : ∀ s, h.sensor = some s → isUnavailableOrUnknown s = false →
      ∃ v, s = .num v) :
    ∃ c', async_added_to_hass c h old = .ok (c', [.publish]) ∧
      c'._current_operation = old.elim c._current_operation Snapshot.state ∧
      c'._target_temperature = old.elim c._target_temperature
        (fun o => o.attrTemperature.elim c._target_temperature some) ∧
      c'._current_temperature = h.sensor.elim c._current_temperature
        (fun s => (parseFloat s).elim c._current_temperature some) ∧
      (c'._attr_available = true ↔
        ∃ s, h.heater = some s ∧ isUnavailableOrUnknown s = false) := by
  have hr := restoreOldState_fields c old
  have hp := primeCurrentTemperature_valid (restoreOldState c old) h.sensor hs
  rw [hr.2.2.1] at hp
  set C : GenericWaterHeater := { restoreOldState c old with
    _current_temperature := (h.sensor.elim c._current_temperature
      (fun s => (parseFloat s).elim c._current_temperature some)) } with hC
  have hCav : C._attr_available = false := hr.2.2.2.trans hav
  refine ⟨primeAvailability C h.heater, ?_, ?_, ?_, ?_, ?_⟩
  · unfold async_added_to_hass
    rw [hp]
  · rw [(primeAvailability_fields C h.heater).2.1]
    exact hr.1
  · rw [(primeAvailability_fields C h.heater).2.2.1]
    exact hr.2.1
  · rw [(primeAvailability_fields C h.heater).2.2.2]
  · rw [(primeAvailability_fields C h.heater).1]
    cases hh : h.heater with
    | none => simp [hr.2.2.2, hav]
    | some s =>
        by_cases hb : isUnavailableOrUnknown s <;>
          simp [hb, hr.2.2.2, hav]

/-- C7 witness: attaching with a restored snapshot of target 130 and mode
OFF and no live sensor/heater state restores both, leaves the current
temperature unset, stays unavailable, and only publishes. -/
theorem added_to_hass_spec_witness :
    ∃ c', async_added_to_hass
        (mkGenericWaterHeater none (some 2) none none .fahrenheit)
        ⟨none, none⟩ (some ⟨some 130, .hOff⟩) = .ok (c', [.publish]) ∧
      c'._current_operation = .hOff ∧
      c'._target_temperature = some 130 ∧
      c'._current_temperature = none ∧
      (c'._attr_available = true ↔
        ∃ s, (none : Option HState) = some s ∧
          isUnavailableOrUnknown s = false) :=
  added_to_hass_spec (mkGenericWaterHeater none (some 2) none none
      .fahrenheit) ⟨none, none⟩ (some ⟨some 130, .hOff⟩) rfl
    (fun s hs => absurd hs (by simp))

/-- C9 counterexample: `async_set_operation_mode` stores its argument
without validation — requesting the mode "unavailable" succeeds and leaves
the entity in an operation mode outside {ON, OFF}. -/
theorem set_operation_mode_stores_invalid_mode :
    async_set_operation_mode (mkGenericWaterHeater none none none none
        .celsius) ⟨none, none⟩ .unavailable =
      .ok ({ mkGenericWaterHeater none none none none .celsius with
             _current_operation := .unavailable }, [.publish]) ∧
    HState.unavailable ≠ HState.hOn ∧
    HState.unavailable ≠ HState.hOff := by
  refine ⟨?_, by simp, by simp⟩
  norm_num [async_set_operation_mode, runControl, _async_control_heating,
    controlDecision, mkGenericWaterHeater]

/-- C9 amended: the operation mode is ON right after construction, and the
invariant mode ∈ {ON, OFF} is preserved by `async_set_operation_mode`
whenever the requested mode is ON or OFF, and by `async_added_to_hass`
whenever the restored snapshot is absent or carries an ON/OFF state;
other arguments or restored states are stored unvalidated and break the
invariant. -/
theorem mode_invariant_on_off (t d mn mx : Option ℚ) (u : TempUnit)
    (c : GenericWaterHeater) (h : Host) (m : HState)
    (hm : m = .hOn ∨ m = .hOff) :
    (mkGenericWaterHeater t d mn mx u)._current_operation = .hOn ∧
    (∀ c' evs, async_set_operation_mode c h m = .ok (c', evs) →
      c'._current_operation = .hOn ∨ c'._current_operation = .hOff) ∧
    (∀ old c' evs, async_added_to_hass c h old = .ok (c', evs) →
      (∀ o, old = some o → o.state = .hOn ∨ o.state = .hOff) →
      (old = none → c._current_operation = .hOn ∨
        c._current_operation = .hOff) →
      c'._current_operation = .hOn ∨ c'._current_operation = .hOff) := by
  refine ⟨rfl, ?_, ?_⟩
  · intro c' evs hok
    unfold async_set_operation_mode runControl at hok
    rcases hctl : _async_control_heating
        { c with _current_operation := m } h with e | evs2 <;>
      rw [hctl] at hok
    · cases hok
    · simp only [Except.ok.injEq, Prod.mk.injEq] at hok
      obtain ⟨rfl, rfl⟩ := hok.symm
      rcases hm with rfl | rfl <;> simp
  · intro old c' evs hok hsome hnone
    unfold async_added_to_hass at hok
    rcases hpc : primeCurrentTemperature (restoreOldState c old) h.sensor
        with e | c2 <;> rw [hpc] at hok
    · cases hok
    · simp only [Except.ok.injEq, Prod.mk.injEq] at hok
      obtain ⟨rfl, rfl⟩ := hok.symm
      have hmode2 := primeCurrentTemperature_ok_mode _ _ _ hpc
      rw [(primeAvailability_fields c2 h.heater).2.1, hmode2,
        (restoreOldState_fields c old).1]
      rcases old with _ | o
      · exact hnone rfl
      · exact hsome o rfl

/-- C9 witness: setting mode OFF keeps the invariant, and restoring a
snapshot whose state is OFF keeps it as well. -/
theorem mode_invariant_on_off_witness :
    (mkGenericWaterHeater none none none none .celsius)._current_operation =
      .hOn ∧
    (({ sampleHeater with _current_operation := HState.hOff } :
        GenericWaterHeater)._current_operation = .hOn ∨
     ({ sampleHeater with _current_operation := HState.hOff } :
        GenericWaterHeater)._current_operation = .hOff) ∧
    (({ sampleHeater with _target_temperature := some 130, _current_operation := HState.hOff } : GenericWaterHeater)._current_operation = .hOn ∨
     ({ sampleHeater with _target_temperature := some 130, _current_operation := HState.hOff } : GenericWaterHeater)._current_operation = .hOff) :=
  ⟨(mode_invariant_on_off none none none none .celsius sampleHeater
      ⟨none, none⟩ .hOff (Or.inr rfl)).1,
   (mode_invariant_on_off none none none none .celsius sampleHeater
      ⟨none, none⟩ .hOff (Or.inr rfl)).2.1 _ _ rfl,
   (mode_invariant_on_off none none none none .celsius sampleHeater
      ⟨none, none⟩ .hOff (Or.inr rfl)).2.2 (some ⟨some 130, .hOff⟩) _ _ rfl
     (fun o ho => by cases ho; exact Or.inr rfl)
     (fun hn => absurd hn (by simp))⟩
